import Mathlib

/-!
# mapeamentoDeTexturas: the Sprite transform, the texture loader and `main`

A shallow embedding of `src/main.cpp` and `src/Sprite.h`.

* `Glm`: the vector and matrix types and the glm functions that `Sprite::draw`
  and `main` call (`translate`, `rotate`, `scale`, `ortho`, `radians`), over any
  scalar type with the arithmetic operations, with the scalar functions of the
  C++ maths library (`cos`, `sin`, `sqrt`) and the degree-to-radian constant taken
  as a record `Scalar`.  The code computes with `float`: `F32` with
  `Glm.binary32` is IEEE 754 binary32, each operation rounded to nearest.
  `Glm.exactReal` over `ℝ` is the idealisation without rounding or overflow,
  for the statements that are made over exact real arithmetic.
* `Sprite`: the class of `Sprite.h` with the members of `main.cpp`.
* `loadTexture`, `Shader` and `main` as functions of the outcomes of the
  external calls, producing the ordered list of GL/GLFW calls and the exit code.
-/

namespace Glm

/-- The type glm::vec2. -/
@[ext] structure Vec2 (α : Type) where
  x : α
  y : α
deriving DecidableEq, Repr

/-- The type glm::vec3. -/
@[ext] structure Vec3 (α : Type) where
  x : α
  y : α
  z : α
deriving DecidableEq, Repr

/-- The type glm::vec4. -/
@[ext] structure Vec4 (α : Type) where
  x : α
  y : α
  z : α
  w : α
deriving DecidableEq, Repr

/-- The type glm::mat4: four columns, `m[i]` is column `i` (column-major). -/
@[ext] structure Mat4 (α : Type) where
  c0 : Vec4 α
  c1 : Vec4 α
  c2 : Vec4 α
  c3 : Vec4 α
deriving DecidableEq, Repr

/-- The scalar functions the transform code takes from the maths library, and the
constant by which `glm::radians` multiplies. -/
structure Scalar (α : Type) where
  cos : α → α
  sin : α → α
  sqrt : α → α
  degToRad : α

variable {α : Type} [Add α] [Sub α] [Mul α] [Div α] [Neg α] [Zero α] [One α] [NatCast α]

/-- Componentwise `vec4 + vec4`. -/
def Vec4.add (a b : Vec4 α) : Vec4 α :=
  ⟨a.x + b.x, a.y + b.y, a.z + b.z, a.w + b.w⟩

/-- The product `vec4 * scalar`. -/
def Vec4.smul (a : Vec4 α) (k : α) : Vec4 α :=
  ⟨a.x * k, a.y * k, a.z * k, a.w * k⟩

/-- The constructor `glm::mat4(1.0f)`. -/
def Mat4.identity : Mat4 α :=
  ⟨⟨1, 0, 0, 0⟩, ⟨0, 1, 0, 0⟩, ⟨0, 0, 1, 0⟩, ⟨0, 0, 0, 1⟩⟩

/-- The product `mat4 * vec4` (column vectors): `m[0]*v.x + m[1]*v.y + m[2]*v.z + m[3]*v.w`. -/
def Mat4.mulVec (m : Mat4 α) (v : Vec4 α) : Vec4 α :=
  (((m.c0.smul v.x).add (m.c1.smul v.y)).add (m.c2.smul v.z)).add (m.c3.smul v.w)

/-- The product `mat4 * mat4`: column `i` of the result is `a * b[i]`. -/
def Mat4.mul (a b : Mat4 α) : Mat4 α :=
  ⟨a.mulVec b.c0, a.mulVec b.c1, a.mulVec b.c2, a.mulVec b.c3⟩

/-- The function glm::radians: `degrees * 0.01745329251994329576923690768489`. -/
def radians (M : Scalar α) (degrees : α) : α :=
  degrees * M.degToRad

/-- The function glm::dot on vec3. -/
def dot (a b : Vec3 α) : α :=
  a.x * b.x + a.y * b.y + a.z * b.z

/-- The function glm::inversesqrt: `1 / sqrt(x)`. -/
def inversesqrt (M : Scalar α) (x : α) : α :=
  1 / M.sqrt x

/-- The function glm::normalize on vec3: `v * inversesqrt(dot(v, v))`. -/
def normalize (M : Scalar α) (v : Vec3 α) : Vec3 α :=
  let k := inversesqrt M (dot v v)
  ⟨v.x * k, v.y * k, v.z * k⟩

/-- The function glm::translate: `Result = m; Result[3] = m[0]*v[0] + m[1]*v[1] + m[2]*v[2] + m[3]`. -/
def translate (m : Mat4 α) (v : Vec3 α) : Mat4 α :=
  ⟨m.c0, m.c1, m.c2, (((m.c0.smul v.x).add (m.c1.smul v.y)).add (m.c2.smul v.z)).add m.c3⟩

/-- The function glm::rotate(m, angle, v), with `Rotate[i][j]` written `rij` (column `i`, row `j`). -/
def rotate (M : Scalar α) (m : Mat4 α) (angle : α) (v : Vec3 α) : Mat4 α :=
  let c := M.cos angle
  let s := M.sin angle
  let axis := normalize M v
  let temp : Vec3 α := ⟨(1 - c) * axis.x, (1 - c) * axis.y, (1 - c) * axis.z⟩
  let r00 := c + temp.x * axis.x
  let r01 := temp.x * axis.y + s * axis.z
  let r02 := temp.x * axis.z - s * axis.y
  let r10 := temp.y * axis.x - s * axis.z
  let r11 := c + temp.y * axis.y
  let r12 := temp.y * axis.z + s * axis.x
  let r20 := temp.z * axis.x + s * axis.y
  let r21 := temp.z * axis.y - s * axis.x
  let r22 := c + temp.z * axis.z
  ⟨((m.c0.smul r00).add (m.c1.smul r01)).add (m.c2.smul r02),
   ((m.c0.smul r10).add (m.c1.smul r11)).add (m.c2.smul r12),
   ((m.c0.smul r20).add (m.c1.smul r21)).add (m.c2.smul r22),
   m.c3⟩

/-- The function glm::scale: `Result[i] = m[i] * v[i]` for `i < 3`, `Result[3] = m[3]`. -/
def scale (m : Mat4 α) (v : Vec3 α) : Mat4 α :=
  ⟨m.c0.smul v.x, m.c1.smul v.y, m.c2.smul v.z, m.c3⟩

/-- The function glm::ortho(left, right, bottom, top, zNear, zFar) (right-handed, depth -1 to 1). -/
def ortho (left right bottom top zNear zFar : α) : Mat4 α :=
  ⟨⟨2 / (right - left), 0, 0, 0⟩,
   ⟨0, 2 / (top - bottom), 0, 0⟩,
   ⟨0, 0, -2 / (zFar - zNear), 0⟩,
   ⟨-(right + left) / (right - left), -(top + bottom) / (top - bottom),
    -(zFar + zNear) / (zFar - zNear), 1⟩⟩

/-- Exact real arithmetic: the real cosine, sine and square root, and `π / 180`.  This is not the
arithmetic of the program, which computes in binary32 (see `Glm.binary32`): it has no rounding
and no overflow.  A statement made with it is a statement about the formulas of the code read
over the real numbers. -/
noncomputable def exactReal : Scalar ℝ :=
  ⟨Real.cos, Real.sin, Real.sqrt, Real.pi / 180⟩

end Glm

open Glm

/-! ## The type `float` -/

/-- A value of the type `float`, IEEE 754 binary32.  Every finite binary32 number is an integer
multiple of 2^-149: `some k` is the number `k * 2^-149`, and `none` stands for the values that
are not finite numbers (the infinities and NaN).  The two zeros are one value.  Each operation
is rounded by itself, to nearest and ties to even: no fused multiply-add, no wider intermediate
precision. -/
structure F32 where
  scaled : Option Int
deriving DecidableEq, Repr

namespace F32

/-- The integer nearest to `n / d`, the even one of two equally near (`d` positive). -/
def nearestInt (n d : Nat) : Nat :=
  let q := n / d
  let r := n % d
  if 2 * r < d then q else if d < 2 * r then q + 1 else if q % 2 = 0 then q else q + 1

/-- Round `n / d`, in units of 2^-149, to 24 significant bits, to nearest and ties to even: below
2^24 the binary32 numbers are the integers, and from there on the spacing doubles with each
binade.  The fuel is used up only by quotients of 2^278 and more, far in the overflow range. -/
def nearestNat : Nat → Nat → Nat → Nat
  | 0, n, d => nearestInt n d
  | fuel + 1, n, d =>
    if n < 2 ^ 24 * d then nearestInt n d else 2 * nearestNat fuel n (2 * d)

/-- The binary32 value of the exact quotient `n / d` in units of 2^-149: rounded to nearest, and
not a finite number when the rounded magnitude reaches 2^128 or `d` is zero. -/
def nearest (n : Int) (d : Nat) : F32 :=
  if d = 0 then ⟨none⟩ else
  let k := nearestNat 254 n.natAbs d
  if 2 ^ 128 * 2 ^ 149 ≤ k then ⟨none⟩ else ⟨some (if n < 0 then -(k : Int) else (k : Int))⟩

/-- The binary32 number nearest to the rational `num / den`. -/
def ofRat (num : Int) (den : Nat) : F32 :=
  nearest (num * 2 ^ 149) den

/-- Floating-point addition: the exact sum, rounded. -/
def add (a b : F32) : F32 :=
  match a.scaled, b.scaled with
  | some x, some y => nearest (x + y) 1
  | _, _ => ⟨none⟩

/-- Floating-point subtraction: the exact difference, rounded. -/
def sub (a b : F32) : F32 :=
  match a.scaled, b.scaled with
  | some x, some y => nearest (x - y) 1
  | _, _ => ⟨none⟩

/-- Floating-point multiplication: the exact product, rounded. -/
def mul (a b : F32) : F32 :=
  match a.scaled, b.scaled with
  | some x, some y => nearest (x * y) (2 ^ 149)
  | _, _ => ⟨none⟩

/-- Floating-point division: the exact quotient, rounded; not a finite number for a zero
divisor. -/
def div (a b : F32) : F32 :=
  match a.scaled, b.scaled with
  | some x, some y =>
    if y < 0 then nearest (-(x * 2 ^ 149)) y.natAbs else nearest (x * 2 ^ 149) y.natAbs
  | _, _ => ⟨none⟩

/-- Floating-point negation, which is exact. -/
def neg (a : F32) : F32 :=
  match a.scaled with
  | some x => ⟨some (-x)⟩
  | none => ⟨none⟩

/-- The larger of two finite numbers. -/
def max (a b : F32) : F32 :=
  match a.scaled, b.scaled with
  | some x, some y => if x ≤ y then b else a
  | _, _ => ⟨none⟩

/-- The smaller of two finite numbers. -/
def min (a b : F32) : F32 :=
  match a.scaled, b.scaled with
  | some x, some y => if x ≤ y then a else b
  | _, _ => ⟨none⟩

/-- The largest `r` below `2 ^ i` above the bits already set with `r * r ≤ n`, found bit by bit
from bit `i - 1` down. -/
def isqrt (n : Nat) : Nat → Nat → Nat
  | 0, r => r
  | i + 1, r => isqrt n i (if (r + 2 ^ i) * (r + 2 ^ i) ≤ n then r + 2 ^ i else r)

/-- The function sqrtf, correctly rounded as IEEE 754 requires: the integer square root is taken
with 30 more bits than the units, and one bit more records whether it is exact. -/
def sqrt (a : F32) : F32 :=
  match a.scaled with
  | none => ⟨none⟩
  | some k =>
    if k < 0 then ⟨none⟩ else
    let n := k.toNat * 2 ^ 149 * 2 ^ 60
    let r := isqrt n 256 0
    nearest ((2 * r + (if r * r = n then 0 else 1) : Nat) : Int) (2 ^ 31)

instance : Add F32 := ⟨add⟩

instance : Sub F32 := ⟨sub⟩

instance : Mul F32 := ⟨mul⟩

instance : Div F32 := ⟨div⟩

instance : Neg F32 := ⟨neg⟩

instance : Max F32 := ⟨max⟩

instance : Min F32 := ⟨min⟩

instance : Zero F32 := ⟨ofRat 0 1⟩

instance : One F32 := ⟨ofRat 1 1⟩

instance : NatCast F32 := ⟨fun n => ofRat n 1⟩

end F32

/-- The binary32 scalar functions that one call of Sprite::draw uses.  glm::rotate calls cosf
and sinf once each, on the same angle: `c` and `s` are what they return for `angle`; for any
other argument the result is left out of the model (`none`).  Annex F of the C standard fixes
`cosf(0) = 1` and `sinf(0) = 0`.  sqrtf is `F32.sqrt`, and the constant of glm::radians is the
binary32 number nearest to 0.01745329251994329576923690768489. -/
def Glm.binary32 (angle c s : F32) : Scalar F32 :=
  ⟨fun a => if a = angle then c else ⟨none⟩, fun a => if a = angle then s else ⟨none⟩, F32.sqrt,
   F32.ofRat 1745329251994329576923690768489 (10 ^ 32)⟩

/-- The binary32 value of `glm::radians(90.0f)`, 90 times the rounded constant: 13176795 * 2^-23,
the binary32 number nearest to π/2. -/
def F32.deg90 : F32 :=
  F32.ofRat 13176795 (2 ^ 23)

/-- The correctly rounded cosine of `F32.deg90`, -6151831 * 2^-47 (about -4.37e-8): what cosf
returns for the angle of a sprite rotated by 90 degrees.  The sine rounds to 1.  Both roundings
are proved in `F32.cosDeg90_correctly_rounded`. -/
def F32.cosDeg90 : F32 :=
  F32.ofRat (-6151831) (2 ^ 47)

/-- The pixel formats loadTexture chooses between. -/
inductive GLenum where
  | GL_RGB
  | GL_RGBA
deriving DecidableEq, Repr

/-- The calls the program makes to GLFW, glad, OpenGL, stb_image and standard output, with the
object names they carry.  `printLog label` is `std::cout << label << info` for an info log `info`
read back from OpenGL.  For the creating calls (`glCreateShader`, `glCreateProgram`, `glGen*`)
the argument is the name the call returns. -/
inductive Call where
  | print (msg : String)
  | printLog (label : String)
  | glfwInit
  | glfwWindowHint
  | glfwCreateWindow
  | glfwMakeContextCurrent
  | glfwTerminate
  | gladLoadGLLoader
  | glViewport
  | glCreateShader (name : Nat)
  | glShaderSource (shader : Nat)
  | glCompileShader (shader : Nat)
  | glGetShaderiv (shader : Nat)
  | glGetShaderInfoLog (shader : Nat)
  | glCreateProgram (name : Nat)
  | glAttachShader (program shader : Nat)
  | glLinkProgram (program : Nat)
  | glGetProgramiv (program : Nat)
  | glGetProgramInfoLog (program : Nat)
  | glDeleteShader (shader : Nat)
  | glDeleteProgram (program : Nat)
  | glUseProgram (program : Nat)
  | glGetUniformLocation (program : Nat) (name : String)
  | glUniformMatrix4fv (name : String)
  | glUniform1i (name : String) (value : Nat)
  | glGenTextures (name : Nat)
  | glBindTexture (texture : Nat)
  | stbi_set_flip_vertically_on_load
  | stbi_load (path : String)
  | glTexImage2D (format : GLenum) (width height : Nat)
  | glGenerateMipmap
  | glTexParameteri
  | stbi_image_free
  | glDeleteTextures (texture : Nat)
  | glGenVertexArrays (name : Nat)
  | glGenBuffers (name : Nat)
  | glBindVertexArray (array : Nat)
  | glBindBuffer (buffer : Nat)
  | glBufferData
  | glEnableVertexAttribArray (index : Nat)
  | glVertexAttribPointer (index size stride offset : Nat)
  | glDeleteVertexArrays (array : Nat)
  | glDeleteBuffers (buffer : Nat)
  | glActiveTexture
  | glDrawArrays (first count : Nat)
  | glEnable
  | glBlendFunc
  | glfwWindowShouldClose
  | glClearColor
  | glClear
  | glfwSwapBuffers
  | glfwPollEvents
deriving Repr

/-- What stb_image reports for a decoded file. -/
structure Image where
  width : Nat
  height : Nat
  nrChannels : Nat
deriving DecidableEq, Repr

/-- The outcomes of the external calls of one run of `main`.  `frames` is the number of times
`glfwWindowShouldClose` answers false before it answers true. -/
structure Env where
  glfwInitOk : Bool
  windowOk : Bool
  gladOk : Bool
  vertexCompileOk : Bool
  fragmentCompileOk : Bool
  linkOk : Bool
  imageBG : Option Image
  imageChar : Option Image
  frames : Nat
deriving DecidableEq, Repr

/-- The calls made so far (oldest first) and the next unused object names.  OpenGL hands out
names that are never zero; shaders and programs share one name space. -/
structure GLState where
  trace : List Call := []
  nextObject : Nat := 1
  nextTexture : Nat := 1
  nextVertexArray : Nat := 1
  nextBuffer : Nat := 1
deriving Repr

/-- Record calls, in order. -/
def GLState.call (g : GLState) (cs : List Call) : GLState :=
  { g with trace := g.trace ++ cs }

/-- The class Shader of `main.cpp`. -/
structure Shader where
  _id : Nat
deriving DecidableEq, Repr

/-- The constructor Shader::Shader; `vOk`, `fOk`, `lOk` are the three statuses read back. -/
def Shader.new (vOk fOk lOk : Bool) (g : GLState) : Shader × GLState :=
  let v := g.nextObject
  let g := { g with nextObject := v + 1 }
  let g := g.call [.glCreateShader v, .glShaderSource v, .glCompileShader v, .glGetShaderiv v]
  let g := if !vOk then
      g.call [.glGetShaderInfoLog v, .printLog "Vertex SHADER COMPILATION ERROR:"]
    else g
  let f := g.nextObject
  let g := { g with nextObject := f + 1 }
  let g := g.call [.glCreateShader f, .glShaderSource f, .glCompileShader f, .glGetShaderiv f]
  let g := if !fOk then
      g.call [.glGetShaderInfoLog f, .printLog "Fragment SHADER COMPILATION ERROR:"]
    else g
  let id := g.nextObject
  let g := { g with nextObject := id + 1 }
  let g := g.call [.glCreateProgram id, .glAttachShader id v, .glAttachShader id f,
    .glLinkProgram id, .glGetProgramiv id]
  let g := if !lOk then
      g.call [.glGetProgramInfoLog id, .printLog "SHADER PROGRAM LINK ERROR:"]
    else g
  let g := g.call [.glDeleteShader v, .glDeleteShader f]
  (⟨id⟩, g)

/-- The destructor Shader::~Shader. -/
def Shader.delete (sh : Shader) (g : GLState) : GLState :=
  g.call [.glDeleteProgram sh._id]

/-- The expression `(nrChannels == 4 ? GL_RGBA : GL_RGB)` of loadTexture. -/
def textureFormat (nrChannels : Nat) : GLenum :=
  if nrChannels = 4 then .GL_RGBA else .GL_RGB

/-- The function loadTexture: `data` is what `stbi_load` returns for `path` (`none` for a null
pointer).  The result is the returned handle and, when the image was decoded, the values written
to `*width` and `*height`. -/
def loadTexture (path : String) (data : Option Image) (g : GLState) : (Nat × Option (Nat × Nat)) × GLState :=
  let texID := g.nextTexture
  let g := { g with nextTexture := texID + 1 }
  let g := g.call [.glGenTextures texID, .glBindTexture texID,
    .stbi_set_flip_vertically_on_load, .stbi_load path]
  match data with
  | none =>
    let g := g.call [.print ("Erro ao carregar: " ++ path)]
    ((0, none), g)
  | some img =>
    let format := textureFormat img.nrChannels
    let g := g.call [.glTexImage2D format img.width img.height, .glGenerateMipmap,
      .glTexParameteri, .glTexParameteri, .glTexParameteri, .glTexParameteri,
      .stbi_image_free, .glBindTexture 0]
    ((texID, some (img.width, img.height)), g)

/-- The class Sprite of `Sprite.h`; the defaults are the member initialisers. -/
structure Sprite (α : Type) [Zero α] [One α] where
  _VAO : Nat
  _VBO : Nat
  _textureID : Nat
  _shader : Shader
  _position : Vec2 α := ⟨0, 0⟩
  _scale : Vec2 α := ⟨1, 1⟩
  _rotation : α := 0

namespace Sprite

variable {α : Type} [Add α] [Sub α] [Mul α] [Div α] [Neg α] [Zero α] [One α] [NatCast α]

/-- The array `vertices` of Sprite::initRenderData: five floats per vertex. -/
def vertices : List α :=
  [-(1 / 2),  1 / 2,    0,  0, 1,
   -(1 / 2), -(1 / 2),  0,  0, 0,
    1 / 2,    1 / 2,    0,  1, 1,
    1 / 2,   -(1 / 2),  0,  1, 0]

/-- Component `k` of the attribute of vertex `i` that `glVertexAttribPointer` describes by
`stride` and `offset`, counted in floats. -/
def fetch (data : List α) (stride offset i k : Nat) : α :=
  data.getD (i * stride + offset + k) 0

/-- Attribute 0 of vertex `i`: three floats, stride 5, offset 0 (`aPos` in the vertex shader). -/
def aPos (i : Nat) : Vec3 α :=
  ⟨fetch vertices 5 0 i 0, fetch vertices 5 0 i 1, fetch vertices 5 0 i 2⟩

/-- Attribute 1 of vertex `i`: two floats, stride 5, offset 3 (`aTexCoord` in the vertex shader). -/
def aTexCoord (i : Nat) : Vec2 α :=
  ⟨fetch vertices 5 3 i 0, fetch vertices 5 3 i 1⟩

/-- The member Sprite::initRenderData: the names generated for `_VAO` and `_VBO`. -/
def initRenderData (g : GLState) : (Nat × Nat) × GLState :=
  let vao := g.nextVertexArray
  let g := { g with nextVertexArray := vao + 1 }
  let vbo := g.nextBuffer
  let g := { g with nextBuffer := vbo + 1 }
  let g := g.call [.glGenVertexArrays vao, .glGenBuffers vbo, .glBindVertexArray vao,
    .glBindBuffer vbo, .glBufferData,
    .glEnableVertexAttribArray 0, .glVertexAttribPointer 0 3 5 0,
    .glEnableVertexAttribArray 1, .glVertexAttribPointer 1 2 5 3,
    .glBindBuffer 0, .glBindVertexArray 0]
  ((vao, vbo), g)

/-- The constructor Sprite::Sprite. -/
def new (textureID : Nat) (shader : Shader) (g : GLState) : Sprite α × GLState :=
  let r := initRenderData g
  ({ _VAO := r.1.1, _VBO := r.1.2, _textureID := textureID, _shader := shader }, r.2)

/-- The destructor Sprite::~Sprite. -/
def delete (sp : Sprite α) (g : GLState) : GLState :=
  g.call [.glDeleteVertexArrays sp._VAO, .glDeleteBuffers sp._VBO]

/-- The member Sprite::setPosition. -/
def setPosition (sp : Sprite α) (p : Vec2 α) : Sprite α :=
  { sp with _position := p }

/-- The member Sprite::setScale. -/
def setScale (sp : Sprite α) (s : Vec2 α) : Sprite α :=
  { sp with _scale := s }

/-- The member Sprite::setRotation. -/
def setRotation (sp : Sprite α) (r : α) : Sprite α :=
  { sp with _rotation := r }

/-- The local `model` of Sprite::draw after its five assignments. -/
def model (M : Scalar α) (sp : Sprite α) : Mat4 α :=
  let model : Mat4 α := Mat4.identity
  let model := Glm.translate model ⟨sp._position.x, sp._position.y, 0⟩
  let model := Glm.translate model ⟨(1 / 2) * sp._scale.x, (1 / 2) * sp._scale.y, 0⟩
  let model := Glm.rotate M model (radians M sp._rotation) ⟨0, 0, 1⟩
  let model := Glm.translate model ⟨-(1 / 2) * sp._scale.x, -(1 / 2) * sp._scale.y, 0⟩
  let model := Glm.scale model ⟨sp._scale.x, sp._scale.y, 1⟩
  model

/-- The calls of Sprite::draw (the matrices uploaded are `projection` and `model`). -/
def draw (sp : Sprite α) (g : GLState) : GLState :=
  g.call [.glUseProgram sp._shader._id,
    .glGetUniformLocation sp._shader._id "projection", .glUniformMatrix4fv "projection",
    .glGetUniformLocation sp._shader._id "model", .glUniformMatrix4fv "model",
    .glActiveTexture, .glBindTexture sp._textureID,
    .glGetUniformLocation sp._shader._id "spriteTexture", .glUniform1i "spriteTexture" 0,
    .glBindVertexArray sp._VAO, .glDrawArrays 0 4, .glBindVertexArray 0]

end Sprite

/-- The vertex shader: `gl_Position = projection * model * vec4(aPos, 1.0)`.  With `F32` the
arithmetic of the GPU is taken to be binary32 with every operation rounded to nearest, like that
of the CPU. -/
def vertexShader {α : Type} [Add α] [Sub α] [Mul α] [Div α] [Neg α] [Zero α] [One α] [NatCast α] (projection model : Mat4 α) (aPos : Vec3 α) : Vec4 α :=
  (projection.mul model).mulVec ⟨aPos.x, aPos.y, aPos.z, 1⟩

namespace Main

variable {α : Type} [Add α] [Sub α] [Mul α] [Div α] [Neg α] [Zero α] [One α] [NatCast α]

/-- The local `projection` of main. -/
def projection : Mat4 α :=
  Glm.ortho 0 800 0 600 (-1) 1

/-- The setters main calls on `bg` (with `windowW = 800`, `windowH = 600`). -/
def configureBg (bg : Sprite α) : Sprite α :=
  let windowW : α := 800
  let windowH : α := 600
  let bg := bg.setScale ⟨windowW, windowH⟩
  bg.setPosition ⟨windowW / 2, windowH / 2⟩

/-- The setters main calls on `character`. -/
def configureCharacter (character : Sprite α) (widthChar heightChar : Nat) : Sprite α :=
  let windowW : α := 800
  let windowH : α := 600
  let character := character.setScale ⟨(widthChar : α), (heightChar : α)⟩
  let character := character.setPosition ⟨windowW / 2, windowH / 2⟩
  character.setRotation 0

/-- The frame loop of main, for `frames` iterations, and the test that ends it. -/
def loop (bg character : Sprite α) : Nat → GLState → GLState
  | 0, g => g.call [.glfwWindowShouldClose]
  | n + 1, g =>
    let g := g.call [.glfwWindowShouldClose, .glClearColor, .glClear]
    let g := bg.draw g
    let g := character.draw g
    let g := g.call [.glfwSwapBuffers, .glfwPollEvents]
    loop bg character n g

/-- The function main: the exit code and the calls made, destructors of the locals included
(they run at `return`, in reverse order of construction).  `widthChar` and `heightChar` are read
only after both loads succeeded, when loadTexture has written them. -/
def main (env : Env) : Int × List Call :=
  let g : GLState := {}
  let g := g.call [.glfwInit]
  if !env.glfwInitOk then
    let g := g.call [.print "Falha ao inicializar GLFW"]
    (-1, g.trace)
  else
  let g := g.call [.glfwWindowHint, .glfwWindowHint, .glfwWindowHint, .glfwCreateWindow]
  if !env.windowOk then
    let g := g.call [.print "Falha ao criar janela GLFW", .glfwTerminate]
    (-1, g.trace)
  else
  let g := g.call [.glfwMakeContextCurrent, .gladLoadGLLoader]
  if !env.gladOk then
    let g := g.call [.print "Falha ao inicializar GLAD", .glfwTerminate]
    (-1, g.trace)
  else
  let g := g.call [.glViewport]
  let (shader, g) := Shader.new env.vertexCompileOk env.fragmentCompileOk env.linkOk g
  let ((texBG, _), g) := loadTexture "../assets/tex/1.png" env.imageBG g
  let ((texChar, sizeChar), g) := loadTexture "../assets/sprites/waterbear.png" env.imageChar g
  if texBG = 0 ∨ texChar = 0 then
    let g := g.call [.print "Falha ao carregar alguma textura", .glfwTerminate]
    let g := shader.delete g
    (-1, g.trace)
  else
  let (widthChar, heightChar) := sizeChar.getD (0, 0)
  let (bg, g) := (Sprite.new texBG shader g : Sprite ℚ × GLState)
  let (character, g) := (Sprite.new texChar shader g : Sprite ℚ × GLState)
  let bg := configureBg bg
  let character := configureCharacter character widthChar heightChar
  let g := g.call [.glEnable, .glBlendFunc]
  let g := loop bg character env.frames g
  let g := g.call [.glDeleteTextures texBG, .glDeleteTextures texChar, .glfwTerminate]
  let g := character.delete g
  let g := bg.delete g
  let g := shader.delete g
  (0, g.trace)

end Main

/-- A sprite with the given transform, for stating properties of the transform alone. -/
def spriteAt {α : Type} [Add α] [Sub α] [Mul α] [Div α] [Neg α] [Zero α] [One α] [NatCast α] (p s : Vec2 α) (r : α) : Sprite α :=
  ((({ _VAO := 0, _VBO := 0, _textureID := 0, _shader := ⟨0⟩ } : Sprite α).setPosition
    p).setScale s).setRotation r

/-- The closed unit quad in local coordinates: the square from (-0.5,-0.5) to (0.5,0.5). -/
def inQuad {α : Type} [LinearOrderedField α] (x y : α) : Prop :=
  -(1 / 2) ≤ x ∧ x ≤ 1 / 2 ∧ -(1 / 2) ≤ y ∧ y ≤ 1 / 2

/-- The four vertices that `glDrawArrays(GL_TRIANGLE_STRIP, 0, 4)` draws, as positions. -/
def Sprite.corners {α : Type} [Add α] [Sub α] [Mul α] [Div α] [Neg α] [Zero α] [One α] [NatCast α] : List (Vec3 α) :=
  [Sprite.aPos 0, Sprite.aPos 1, Sprite.aPos 2, Sprite.aPos 3]

/-- The four corners of the quad transformed by the model matrix (`model * vec4(aPos, 1.0)`). -/
def Sprite.worldCorners {α : Type} [Add α] [Sub α] [Mul α] [Div α] [Neg α] [Zero α] [One α] [NatCast α] (M : Scalar α) (sp : Sprite α) : List (Vec4 α) :=
  Sprite.corners.map fun a => (sp.model M).mulVec ⟨a.x, a.y, a.z, 1⟩

/-- The largest minus the smallest value of a list (0 for the empty list). -/
def extent {α : Type} [Max α] [Min α] [Sub α] [Zero α] (xs : List α) : α :=
  xs.foldl max (xs.headD 0) - xs.foldl min (xs.headD 0)

/-- Width of the axis-aligned bounding box of a list of points. -/
def boxWidth {α : Type} [Max α] [Min α] [Sub α] [Zero α] (pts : List (Vec4 α)) : α :=
  extent (pts.map Vec4.x)

/-- Height of the axis-aligned bounding box of a list of points. -/
def boxHeight {α : Type} [Max α] [Min α] [Sub α] [Zero α] (pts : List (Vec4 α)) : α :=
  extent (pts.map Vec4.y)

/-- The plane position of a vertex. -/
def Glm.Vec3.xy {α : Type} (v : Vec3 α) : Vec2 α :=
  ⟨v.x, v.y⟩

/-- The closed triangle with corners `a`, `b`, `c`: their convex combinations. -/
def inTriangle {α : Type} [LinearOrderedField α] (a b c p : Vec2 α) : Prop :=
  ∃ u v w : α, 0 ≤ u ∧ 0 ≤ v ∧ 0 ≤ w ∧ u + v + w = 1 ∧
    p.x = u * a.x + v * b.x + w * c.x ∧ p.y = u * a.y + v * b.y + w * c.y

/-- The interior of the triangle with corners `a`, `b`, `c`: the convex combinations with
positive weights. -/
def inTriangleInterior {α : Type} [LinearOrderedField α] (a b c p : Vec2 α) : Prop :=
  ∃ u v w : α, 0 < u ∧ 0 < v ∧ 0 < w ∧ u + v + w = 1 ∧
    p.x = u * a.x + v * b.x + w * c.x ∧ p.y = u * a.y + v * b.y + w * c.y

/-- Twice the signed area of the triangle `a`, `b`, `c`; zero exactly for a degenerate one. -/
def doubledArea {α : Type} [Add α] [Sub α] [Mul α] [Div α] [Neg α] [Zero α] [One α] [NatCast α] (a b c : Vec2 α) : α :=
  (b.x - a.x) * (c.y - a.y) - (c.x - a.x) * (b.y - a.y)

/-- Corner `j` (0, 1 or 2) of triangle `k` of the strip: a triangle strip draws, for each `k`,
the triangle of vertices `k`, `k + 1`, `k + 2`. -/
def Sprite.stripCorner {α : Type} [Add α] [Sub α] [Mul α] [Div α] [Neg α] [Zero α] [One α] [NatCast α] (k j : Nat) : Vec2 α :=
  (Sprite.aPos (k + j) : Vec3 α).xy

/-- False on the calls by which the Shader constructor reports a failed compilation or link
(reading an info log and printing it), true on every other call. -/
def Call.notShaderDiagnostic : Call → Bool
  | .glGetShaderInfoLog _ => false
  | .glGetProgramInfoLog _ => false
  | .printLog _ => false
  | _ => true

/-- The environment in which the three shader statuses are replaced by `v`, `f`, `l`. -/
def Env.withShader (env : Env) (v f l : Bool) : Env :=
  { env with vertexCompileOk := v, fragmentCompileOk := f, linkOk := l }

/-- The calls of the Shader constructor when the next unused object name is `k`. -/
def Shader.calls (vOk fOk lOk : Bool) (k : Nat) : List Call :=
  [.glCreateShader k, .glShaderSource k, .glCompileShader k, .glGetShaderiv k]
  ++ (if vOk then [] else [.glGetShaderInfoLog k, .printLog "Vertex SHADER COMPILATION ERROR:"])
  ++ [.glCreateShader (k + 1), .glShaderSource (k + 1), .glCompileShader (k + 1),
      .glGetShaderiv (k + 1)]
  ++ (if fOk then [] else
      [.glGetShaderInfoLog (k + 1), .printLog "Fragment SHADER COMPILATION ERROR:"])
  ++ [.glCreateProgram (k + 2), .glAttachShader (k + 2) k, .glAttachShader (k + 2) (k + 1),
      .glLinkProgram (k + 2), .glGetProgramiv (k + 2)]
  ++ (if lOk then [] else [.glGetProgramInfoLog (k + 2), .printLog "SHADER PROGRAM LINK ERROR:"])
  ++ [.glDeleteShader k, .glDeleteShader (k + 1)]

/-- The calls of the frame loop of main over `n` frames. -/
def Main.loopCalls {α : Type} [Add α] [Sub α] [Mul α] [Div α] [Neg α] [Zero α] [One α] [NatCast α] (bg character : Sprite α) (n : Nat) : List Call :=
  (Main.loop bg character n {}).trace

/-- Square root fixes one: the only law of the scalar record the Z-axis rotation needs. -/
def Glm.Scalar.SqrtOne {α : Type} [Add α] [Sub α] [Mul α] [Div α] [Neg α] [Zero α] [One α] [NatCast α] (M : Scalar α) : Prop :=
  M.sqrt 1 = 1

/-! ## Properties -/

set_option maxRecDepth 100000

/-- The model matrix depends on the sprite through its transform only. -/
theorem Sprite.model_eq_spriteAt {α : Type} [Add α] [Sub α] [Mul α] [Div α] [Neg α] [Zero α]
    [One α] [NatCast α] (M : Scalar α) (sp : Sprite α) :
    sp.model M = (spriteAt sp._position sp._scale sp._rotation).model M := rfl

/-- In binary32, `glm::radians` sends 0 to 0 and 90 to `F32.deg90`, whatever cosf and sinf are. -/
theorem Glm.radians_binary32 (angle c s : F32) :
    Glm.radians (Glm.binary32 angle c s) 0 = 0
    ∧ Glm.radians (Glm.binary32 angle c s) 90 = F32.deg90 := by
  constructor <;> (simp only [Glm.radians, Glm.binary32]; decide)

/-- Known facts of binary32 arithmetic, as a check of `F32`: 2^24 + 1 rounds to 2^24 and
2^24 + 3 to 2^24 + 4 (ties to even); 1/10 is 13421773 * 2^-27; the largest
finite number is 2^128 - 2^104 and adding 2^103 to it overflows; the smallest positive number is
2^-149 and half of it underflows to 0; sqrtf(2) is 11863283 * 2^-23; division by zero gives no
finite number. -/
theorem F32.rounding_examples :
    (16777216 : F32) + 1 = 16777216
    ∧ (16777216 : F32) + 3 = 16777220
    ∧ (1 : F32) / 10 = F32.ofRat 13421773 (2 ^ 27)
    ∧ (F32.ofRat (2 ^ 128 - 2 ^ 104) 1).scaled = some ((2 ^ 128 - 2 ^ 104) * 2 ^ 149)
    ∧ F32.ofRat (2 ^ 128 - 2 ^ 104) 1 + F32.ofRat (2 ^ 103) 1 = ⟨none⟩
    ∧ (F32.ofRat 1 (2 ^ 149)).scaled = some 1
    ∧ F32.ofRat 1 (2 ^ 149) / 2 = 0
    ∧ F32.sqrt 2 = F32.ofRat 11863283 (2 ^ 23)
    ∧ (1 : F32) / 0 = ⟨none⟩ := by
  decide

/-- In binary32 as well the centre of the sprite of claim C2's input is moved: at position (0,0),
scale (2,2) and rotation 90 degrees it is sent to (2, 2^-24, 0). -/
theorem Sprite.centre_binary32_at_90 :
    ((spriteAt (⟨0, 0⟩ : Vec2 F32) ⟨2, 2⟩ 90).model
        (Glm.binary32 F32.deg90 F32.cosDeg90 1)).mulVec ⟨0, 0, 0, 1⟩
      = ⟨2, F32.ofRat 1 (2 ^ 24), 0, 1⟩ := by
  decide

/-- The values `Glm.binary32` is given for a rotation of 90 degrees are the correctly rounded
ones.  `F32.deg90` is the number 13176795 * 2^-23 and `F32.cosDeg90` the number -6151831 * 2^-47,
both exactly; the real cosine of the former is within 2^-49 of the latter, half a unit in its
last place, and the real sine is within 2^-25 of 1, half a unit in the last place below 1. -/
theorem F32.cosDeg90_correctly_rounded :
    F32.deg90.scaled = some (13176795 * 2 ^ 126)
    ∧ F32.cosDeg90.scaled = some (-6151831 * 2 ^ 102)
    ∧ |Real.cos (13176795 / 2 ^ 23) - (-6151831 / 2 ^ 47)| < 1 / 2 ^ 49
    ∧ |Real.sin (13176795 / 2 ^ 23) - 1| < 1 / 2 ^ 25 := by
  have hlo := Real.pi_gt_d20
  have hhi := Real.pi_lt_d20
  obtain ⟨d, hd⟩ : ∃ d : ℝ, d = 13176795 / 2 ^ 23 - Real.pi / 2 := ⟨_, rfl⟩
  have hx : (13176795 / 2 ^ 23 : ℝ) = d + Real.pi / 2 := by rw [hd]; ring
  have hd1 : d < 4371139000186376 / 10 ^ 23 := by
    rw [hd]; norm_num at hlo ⊢; linarith
  have hd2 : 4371139000185874 / 10 ^ 23 < d := by
    rw [hd]; norm_num at hhi ⊢; linarith
  have hd0 : 0 < d := lt_trans (by norm_num) hd2
  have hdle : d ≤ 1 := le_of_lt (lt_trans hd1 (by norm_num))
  have hs1 : Real.sin d < d := Real.sin_lt hd0
  have hs2 : d - d ^ 3 / 4 < Real.sin d := Real.sin_gt_sub_cube hd0 hdle
  have hd3 : d ^ 3 < 1 / 10 ^ 21 := by
    calc d ^ 3 < (4371139000186376 / 10 ^ 23 : ℝ) ^ 3 := by gcongr
      _ < 1 / 10 ^ 21 := by norm_num
  have hd4 : d ^ 2 < 1 / 10 ^ 14 := by
    calc d ^ 2 < (4371139000186376 / 10 ^ 23 : ℝ) ^ 2 := by gcongr
      _ < 1 / 10 ^ 14 := by norm_num
  have hc1 : Real.cos d ≤ 1 := Real.cos_le_one d
  have hc2 : 1 - d ^ 2 / 2 ≤ Real.cos d := Real.one_sub_sq_div_two_le_cos
  refine ⟨by decide, by decide, ?_, ?_⟩
  · rw [hx, Real.cos_add_pi_div_two, abs_lt]
    constructor
    · have : (4371139000186376 / 10 ^ 23 : ℝ) < -6151831 / 2 ^ 47 * -1 + 1 / 2 ^ 49 := by
        norm_num
      linarith
    · have : (-6151831 / 2 ^ 47 * -1 - 1 / 2 ^ 49 : ℝ)
          < 4371139000185874 / 10 ^ 23 - 1 / 10 ^ 21 / 4 := by norm_num
      linarith
  · rw [hx, Real.sin_add_pi_div_two, abs_lt]
    constructor
    · have : (1 / 10 ^ 14 / 2 : ℝ) < 1 / 2 ^ 25 := by norm_num
      linarith
    · have : (0 : ℝ) < 1 / 2 ^ 25 := by norm_num
      linarith

section Lemmas

variable {α : Type} [Field α]

theorem Glm.normalize_unitZ (M : Scalar α) (h : M.SqrtOne) :
    Glm.normalize M ⟨0, 0, 1⟩ = ⟨0, 0, 1⟩ := by
  have h1 : M.sqrt 1 = 1 := h
  simp only [Glm.normalize, Glm.inversesqrt, Glm.dot]
  ext <;> simp [h1]

/-- Closed form of the Z-axis rotation applied by glm::rotate. -/
theorem Glm.rotate_unitZ (M : Scalar α) (h : M.SqrtOne) (m : Mat4 α) (a : α) :
    Glm.rotate M m a ⟨0, 0, 1⟩ =
      ⟨(m.c0.smul (M.cos a)).add (m.c1.smul (M.sin a)),
       (m.c1.smul (M.cos a)).add (m.c0.smul (-(M.sin a))),
       m.c2, m.c3⟩ := by
  simp only [Glm.rotate, Glm.normalize_unitZ M h]
  ext <;> simp [Vec4.add, Vec4.smul] <;> ring

/-- The entries of the model matrix of Sprite::draw. -/
theorem Sprite.model_entries (M : Scalar α) (h : M.SqrtOne) (sp : Sprite α) :
    sp.model M =
      ⟨⟨M.cos (sp._rotation * M.degToRad) * sp._scale.x,
        M.sin (sp._rotation * M.degToRad) * sp._scale.x, 0, 0⟩,
       ⟨-(M.sin (sp._rotation * M.degToRad)) * sp._scale.y,
        M.cos (sp._rotation * M.degToRad) * sp._scale.y, 0, 0⟩,
       ⟨0, 0, 1, 0⟩,
       ⟨sp._position.x + (1 / 2) * sp._scale.x
          - (M.cos (sp._rotation * M.degToRad) * ((1 / 2) * sp._scale.x)
            - M.sin (sp._rotation * M.degToRad) * ((1 / 2) * sp._scale.y)),
        sp._position.y + (1 / 2) * sp._scale.y
          - (M.sin (sp._rotation * M.degToRad) * ((1 / 2) * sp._scale.x)
            + M.cos (sp._rotation * M.degToRad) * ((1 / 2) * sp._scale.y)),
        0, 1⟩⟩ := by
  simp only [Sprite.model, Glm.rotate_unitZ M h, Glm.radians, Glm.translate, Glm.scale,
    Mat4.identity, Vec4.add, Vec4.smul]
  ext <;> simp <;> ring

/-- The image of a local point under the model matrix of Sprite::draw. -/
theorem Sprite.model_mulVec (M : Scalar α) (h : M.SqrtOne) (sp : Sprite α) (x y z : α) :
    (sp.model M).mulVec ⟨x, y, z, 1⟩ =
      ⟨sp._position.x + (1 / 2) * sp._scale.x
          + (M.cos (sp._rotation * M.degToRad) * (sp._scale.x * x - (1 / 2) * sp._scale.x)
            - M.sin (sp._rotation * M.degToRad) * (sp._scale.y * y - (1 / 2) * sp._scale.y)),
       sp._position.y + (1 / 2) * sp._scale.y
          + (M.sin (sp._rotation * M.degToRad) * (sp._scale.x * x - (1 / 2) * sp._scale.x)
            + M.cos (sp._rotation * M.degToRad) * (sp._scale.y * y - (1 / 2) * sp._scale.y)),
       z, 1⟩ := by
  rw [Sprite.model_entries M h]
  simp only [Mat4.mulVec, Vec4.add, Vec4.smul]
  ext <;> simp <;> ring

end Lemmas

section RealLemmas

theorem Glm.exactReal_sqrtOne : Glm.exactReal.SqrtOne := by
  simp [Glm.Scalar.SqrtOne, Glm.exactReal]

theorem Glm.exactReal_cos (a : ℝ) : Glm.exactReal.cos a = Real.cos a := rfl

theorem Glm.exactReal_sin (a : ℝ) : Glm.exactReal.sin a = Real.sin a := rfl

theorem Glm.exactReal_degToRad : Glm.exactReal.degToRad = Real.pi / 180 := rfl

theorem Glm.deg90 : (90 : ℝ) * (Real.pi / 180) = Real.pi / 2 := by ring

theorem Glm.deg180 : (180 : ℝ) * (Real.pi / 180) = Real.pi := by ring

end RealLemmas

/-- C1: for every sprite (position p, scale s, rotation r degrees) the model matrix of
Sprite::draw is the product T(p) * T(0.5 s) * Rz(r) * T(-0.5 s) * S(s), in that order, and over
exact real arithmetic it maps the local point (x, y, z, 1) to
(p + 0.5 s + Rot_r(s.x x - 0.5 s.x, s.y y - 0.5 s.y), z, 1), with Rot_r the counter-clockwise
rotation by r degrees. -/
theorem C1_model_is_ordered_product (sp : Sprite ℝ) :
    sp.model exactReal =
      ((((Glm.translate Mat4.identity ⟨sp._position.x, sp._position.y, 0⟩).mul
          (Glm.translate Mat4.identity ⟨(1 / 2) * sp._scale.x, (1 / 2) * sp._scale.y, 0⟩)).mul
          (Glm.rotate exactReal Mat4.identity (radians exactReal sp._rotation) ⟨0, 0, 1⟩)).mul
          (Glm.translate Mat4.identity ⟨-(1 / 2) * sp._scale.x, -(1 / 2) * sp._scale.y, 0⟩)).mul
          (Glm.scale Mat4.identity ⟨sp._scale.x, sp._scale.y, 1⟩)
    ∧ ∀ x y z : ℝ,
        (sp.model exactReal).mulVec ⟨x, y, z, 1⟩ =
          ⟨sp._position.x + (1 / 2) * sp._scale.x
              + (Real.cos (sp._rotation * (Real.pi / 180)) * (sp._scale.x * x - (1 / 2) * sp._scale.x)
                - Real.sin (sp._rotation * (Real.pi / 180)) * (sp._scale.y * y - (1 / 2) * sp._scale.y)),
           sp._position.y + (1 / 2) * sp._scale.y
              + (Real.sin (sp._rotation * (Real.pi / 180)) * (sp._scale.x * x - (1 / 2) * sp._scale.x)
                + Real.cos (sp._rotation * (Real.pi / 180)) * (sp._scale.y * y - (1 / 2) * sp._scale.y)),
           z, 1⟩ := by
  refine ⟨?_, fun x y z => ?_⟩
  · rw [Sprite.model_entries exactReal Glm.exactReal_sqrtOne]
    simp only [Glm.rotate_unitZ exactReal Glm.exactReal_sqrtOne, Glm.radians, Glm.translate, Glm.scale,
      Mat4.identity, Mat4.mul, Mat4.mulVec, Vec4.add, Vec4.smul]
    ext <;> simp <;> ring
  · exact Sprite.model_mulVec exactReal Glm.exactReal_sqrtOne sp x y z

/-- C2: at position (0,0), scale (2,2) and rotation 90 degrees the model matrix of Sprite::draw
sends the quad's local centre (0,0,0) to (2,0,0), not to the position (0,0,0): the centre is moved
away from `position` by the rotation. -/
theorem C2_center_moves_at_90 :
    ((spriteAt (⟨0, 0⟩ : Vec2 ℝ) ⟨2, 2⟩ 90).model exactReal).mulVec ⟨0, 0, 0, 1⟩ = ⟨2, 0, 0, 1⟩
    ∧ ((spriteAt (⟨0, 0⟩ : Vec2 ℝ) ⟨2, 2⟩ 90).model exactReal).mulVec ⟨0, 0, 0, 1⟩ ≠ ⟨0, 0, 0, 1⟩ := by
  have h : ((spriteAt (⟨0, 0⟩ : Vec2 ℝ) ⟨2, 2⟩ 90).model exactReal).mulVec ⟨0, 0, 0, 1⟩
      = ⟨2, 0, 0, 1⟩ := by
    rw [Sprite.model_mulVec exactReal Glm.exactReal_sqrtOne]
    simp only [spriteAt, Sprite.setPosition, Sprite.setScale, Sprite.setRotation,
      Glm.exactReal_cos, Glm.exactReal_sin, Glm.exactReal_degToRad, Glm.deg90, Real.cos_pi_div_two,
      Real.sin_pi_div_two]
    ext <;> norm_num
  refine ⟨h, ?_⟩
  rw [h]
  intro hc
  have hx := congrArg Vec4.x hc
  norm_num at hx

/-- The image of the interval [-1/2, 1/2] under `x ↦ c + s * x` is the interval of radius `|s| / 2`
around `c`. -/
theorem scaled_interval {α : Type} [LinearOrderedField α] (c s X : α) :
    (∃ x, -(1 / 2) ≤ x ∧ x ≤ 1 / 2 ∧ c + s * x = X) ↔ |X - c| ≤ |s| / 2 := by
  constructor
  · rintro ⟨x, h1, h2, rfl⟩
    have hx : |x| ≤ 1 / 2 := abs_le.mpr ⟨h1, h2⟩
    have : c + s * x - c = s * x := by ring
    rw [this, abs_mul]
    calc |s| * |x| ≤ |s| * (1 / 2) := mul_le_mul_of_nonneg_left hx (abs_nonneg s)
      _ = |s| / 2 := by ring
  · intro h
    by_cases hs : s = 0
    · subst hs
      refine ⟨0, by norm_num, by norm_num, ?_⟩
      simp only [abs_zero, zero_div] at h
      have := abs_nonpos_iff.mp h
      simp only [zero_mul, add_zero]
      exact (sub_eq_zero.mp this).symm
    · have hpos : 0 < |s| := abs_pos.mpr hs
      have hq : |(X - c) / s| ≤ 1 / 2 := by
        rw [abs_div, div_le_iff₀ hpos]
        calc |X - c| ≤ |s| / 2 := h
          _ = 1 / 2 * |s| := by ring
      refine ⟨(X - c) / s, (abs_le.mp hq).1, (abs_le.mp hq).2, ?_⟩
      field_simp

/-- C3 (as stated, refuted): in binary32, at rotation 0, position (1,1) and scale (2^25, 2^25),
the pivot translations do not cancel: 1 + 2^24 rounds to 2^24, and the model matrix of
Sprite::draw sends the local point (0,0,0) to (0,0,0), where the claim has
(p.x + s.x * 0, p.y + s.y * 0, 0) = (1,1,0). -/
theorem C3_binary32_translations_do_not_cancel :
    ((spriteAt (⟨1, 1⟩ : Vec2 F32) ⟨33554432, 33554432⟩ 0).model (Glm.binary32 0 1 0)).mulVec
        ⟨0, 0, 0, 1⟩ = ⟨0, 0, 0, 1⟩
    ∧ (⟨1 + 33554432 * 0, 1 + 33554432 * 0, 0, 1⟩ : Vec4 F32) = ⟨1, 1, 0, 1⟩
    ∧ (⟨0, 0, 0, 1⟩ : Vec4 F32) ≠ ⟨1, 1, 0, 1⟩ := by
  decide

/-- C3 (amended): a freshly constructed Sprite (position (0,0), scale (1,1), rotation 0) has the
identity as model matrix, over exact real arithmetic and in binary32 alike; and over exact real
arithmetic, at rotation 0, for every position p and scale s, the model matrix maps the local
point (x,y,z) to (p.x + s.x x, p.y + s.y y, z), so that the image of the quad is the axis-aligned
rectangle centred at p with extents |s.x| by |s.y|. -/
theorem C3_identity_and_unrotated (textureID : Nat) (shader : Shader) (g : GLState)
    (p s : Vec2 ℝ) :
    ((Sprite.new textureID shader g).1 : Sprite ℝ).model exactReal = Mat4.identity
    ∧ ((Sprite.new textureID shader g).1 : Sprite F32).model (Glm.binary32 0 1 0) = Mat4.identity
    ∧ (∀ x y z : ℝ, ((spriteAt p s 0).model exactReal).mulVec ⟨x, y, z, 1⟩
        = ⟨p.x + s.x * x, p.y + s.y * y, z, 1⟩)
    ∧ (∀ X Y : ℝ, (∃ x y, inQuad x y ∧
          ((spriteAt p s 0).model exactReal).mulVec ⟨x, y, 0, 1⟩ = ⟨X, Y, 0, 1⟩)
        ↔ (|X - p.x| ≤ |s.x| / 2 ∧ |Y - p.y| ≤ |s.y| / 2)) := by
  have hmap : ∀ x y z : ℝ, ((spriteAt p s 0).model exactReal).mulVec ⟨x, y, z, 1⟩
      = ⟨p.x + s.x * x, p.y + s.y * y, z, 1⟩ := by
    intro x y z
    rw [Sprite.model_mulVec exactReal Glm.exactReal_sqrtOne]
    simp only [spriteAt, Sprite.setPosition, Sprite.setScale, Sprite.setRotation,
      Glm.exactReal_cos, Glm.exactReal_sin, zero_mul, Real.cos_zero, Real.sin_zero]
    ext <;> simp
  refine ⟨?_, ?_, hmap, fun X Y => ?_⟩
  · rw [Sprite.model_entries exactReal Glm.exactReal_sqrtOne]
    simp only [Sprite.new, Glm.exactReal_cos, Glm.exactReal_sin, zero_mul, Real.cos_zero,
      Real.sin_zero, Mat4.identity]
    ext <;> norm_num
  · have h : ((Sprite.new textureID shader g).1 : Sprite F32).model (Glm.binary32 0 1 0)
        = (spriteAt (⟨0, 0⟩ : Vec2 F32) ⟨1, 1⟩ 0).model (Glm.binary32 0 1 0) := rfl
    rw [h]
    decide
  · rw [← scaled_interval p.x s.x X, ← scaled_interval p.y s.y Y]
    constructor
    · rintro ⟨x, y, ⟨hx1, hx2, hy1, hy2⟩, h⟩
      rw [hmap] at h
      have h1 := congrArg Vec4.x h
      have h2 := congrArg Vec4.y h
      exact ⟨⟨x, hx1, hx2, h1⟩, ⟨y, hy1, hy2, h2⟩⟩
    · rintro ⟨⟨x, hx1, hx2, h1⟩, ⟨y, hy1, hy2, h2⟩⟩
      refine ⟨x, y, ⟨hx1, hx2, hy1, hy2⟩, ?_⟩
      rw [hmap, h1, h2]

section QuadLemmas

variable {α : Type} [Field α]

theorem Sprite.aPos_zero : (Sprite.aPos 0 : Vec3 α) = ⟨-(1 / 2), 1 / 2, 0⟩ := rfl

theorem Sprite.aPos_one : (Sprite.aPos 1 : Vec3 α) = ⟨-(1 / 2), -(1 / 2), 0⟩ := rfl

theorem Sprite.aPos_two : (Sprite.aPos 2 : Vec3 α) = ⟨1 / 2, 1 / 2, 0⟩ := rfl

theorem Sprite.aPos_three : (Sprite.aPos 3 : Vec3 α) = ⟨1 / 2, -(1 / 2), 0⟩ := rfl

theorem Sprite.aTexCoord_zero : (Sprite.aTexCoord 0 : Vec2 α) = ⟨0, 1⟩ := rfl

theorem Sprite.aTexCoord_one : (Sprite.aTexCoord 1 : Vec2 α) = ⟨0, 0⟩ := rfl

theorem Sprite.aTexCoord_two : (Sprite.aTexCoord 2 : Vec2 α) = ⟨1, 1⟩ := rfl

theorem Sprite.aTexCoord_three : (Sprite.aTexCoord 3 : Vec2 α) = ⟨1, 0⟩ := rfl

end QuadLemmas

/-- The corners of the quad under the model matrix, over exact real arithmetic. -/
theorem Sprite.worldCorners_exact (sp : Sprite ℝ) :
    sp.worldCorners exactReal =
      [(sp.model exactReal).mulVec ⟨-(1 / 2), 1 / 2, 0, 1⟩,
       (sp.model exactReal).mulVec ⟨-(1 / 2), -(1 / 2), 0, 1⟩,
       (sp.model exactReal).mulVec ⟨1 / 2, 1 / 2, 0, 1⟩,
       (sp.model exactReal).mulVec ⟨1 / 2, -(1 / 2), 0, 1⟩] := rfl

/-- The extent of four values, two of which repeat: `a, b, a, b` or `a, a, b, b`. -/
theorem extent_pairs (a d : ℝ) :
    extent [a, a + d, a, a + d] = |d| ∧ extent [a, a, a + d, a + d] = |d| := by
  simp only [extent, List.foldl, List.headD]
  rcases le_total 0 d with h | h
  · rw [abs_of_nonneg h]
    refine ⟨?_, ?_⟩ <;> (simp only [max_def, min_def]; split_ifs <;> linarith)
  · rw [abs_of_nonpos h]
    refine ⟨?_, ?_⟩ <;> (simp only [max_def, min_def]; split_ifs <;> linarith)

/-- The plane coordinates of the transformed corners at rotation 90 degrees. -/
theorem Sprite.worldCorners_at_90 (p s : Vec2 ℝ) :
    ((spriteAt p s 90).worldCorners exactReal).map Vec4.x
        = [p.x + (1 / 2) * s.x, p.x + (1 / 2) * s.x + s.y,
           p.x + (1 / 2) * s.x, p.x + (1 / 2) * s.x + s.y]
    ∧ ((spriteAt p s 90).worldCorners exactReal).map Vec4.y
        = [p.y + (1 / 2) * s.y - s.x, p.y + (1 / 2) * s.y - s.x,
           p.y + (1 / 2) * s.y - s.x + s.x, p.y + (1 / 2) * s.y - s.x + s.x] := by
  rw [Sprite.worldCorners_exact]
  simp only [Sprite.model_mulVec exactReal Glm.exactReal_sqrtOne, List.map]
  simp only [spriteAt, Sprite.setPosition, Sprite.setScale, Sprite.setRotation,
    Glm.exactReal_cos, Glm.exactReal_sin, Glm.exactReal_degToRad, Glm.deg90, Real.cos_pi_div_two,
    Real.sin_pi_div_two]
  refine ⟨?_, ?_⟩ <;> simp only [List.cons.injEq, and_true] <;> refine ⟨?_, ?_, ?_, ?_⟩ <;> ring

/-- The plane coordinates of the transformed corners at rotation 0. -/
theorem Sprite.worldCorners_at_0 (p s : Vec2 ℝ) :
    ((spriteAt p s 0).worldCorners exactReal).map Vec4.x
        = [p.x - (1 / 2) * s.x, p.x - (1 / 2) * s.x,
           p.x - (1 / 2) * s.x + s.x, p.x - (1 / 2) * s.x + s.x]
    ∧ ((spriteAt p s 0).worldCorners exactReal).map Vec4.y
        = [p.y + (1 / 2) * s.y, p.y + (1 / 2) * s.y + -s.y,
           p.y + (1 / 2) * s.y, p.y + (1 / 2) * s.y + -s.y] := by
  rw [Sprite.worldCorners_exact]
  simp only [Sprite.model_mulVec exactReal Glm.exactReal_sqrtOne, List.map]
  simp only [spriteAt, Sprite.setPosition, Sprite.setScale, Sprite.setRotation,
    Glm.exactReal_cos, Glm.exactReal_sin, zero_mul, Real.cos_zero, Real.sin_zero]
  refine ⟨?_, ?_⟩ <;> simp only [List.cons.injEq, and_true] <;> refine ⟨?_, ?_, ?_, ?_⟩ <;> ring

/-- C4 (as stated, refuted): in binary32, at rotation 90 degrees, position (0,0) and scale
(2^25, 3), the bounding box of the four transformed corners is 4 wide, not |sy| = 3, whether cosf
returns the correctly rounded value for the angle or exactly 0; and at position (100,50) and scale
(800,3), with the correctly rounded cosine, it is 3 + 2^-14 wide. -/
theorem C4_binary32_box_width_is_not_sy :
    boxWidth ((spriteAt (⟨0, 0⟩ : Vec2 F32) ⟨33554432, 3⟩ 90).worldCorners
        (Glm.binary32 F32.deg90 F32.cosDeg90 1)) = 4
    ∧ boxWidth ((spriteAt (⟨0, 0⟩ : Vec2 F32) ⟨33554432, 3⟩ 90).worldCorners
        (Glm.binary32 F32.deg90 0 1)) = 4
    ∧ boxWidth ((spriteAt (⟨100, 50⟩ : Vec2 F32) ⟨800, 3⟩ 90).worldCorners
        (Glm.binary32 F32.deg90 F32.cosDeg90 1)) = F32.ofRat 49153 16384
    ∧ (4 : F32) ≠ 3 ∧ F32.ofRat 49153 16384 ≠ 3 := by
  decide

/-- C4 (amended): over exact real arithmetic, at rotation 90 degrees, for every position p and
scale (sx, sy), the four local corners of the quad transformed by the model matrix of
Sprite::draw have a bounding box of width |sy| and height |sx|, while at rotation 0 the box is
|sx| wide and |sy| high; for position (100,50) and scale (20,10) the rotated box is 10 wide and
20 high, over exact real arithmetic and in binary32 alike. -/
theorem C4_bounding_box_swaps_at_90 (p s : Vec2 ℝ) :
    boxWidth ((spriteAt p s 90).worldCorners exactReal) = |s.y|
    ∧ boxHeight ((spriteAt p s 90).worldCorners exactReal) = |s.x|
    ∧ boxWidth ((spriteAt p s 0).worldCorners exactReal) = |s.x|
    ∧ boxHeight ((spriteAt p s 0).worldCorners exactReal) = |s.y|
    ∧ boxWidth ((spriteAt (⟨100, 50⟩ : Vec2 ℝ) ⟨20, 10⟩ 90).worldCorners exactReal) = 10
    ∧ boxHeight ((spriteAt (⟨100, 50⟩ : Vec2 ℝ) ⟨20, 10⟩ 90).worldCorners exactReal) = 20
    ∧ boxWidth ((spriteAt (⟨100, 50⟩ : Vec2 F32) ⟨20, 10⟩ 90).worldCorners
        (Glm.binary32 F32.deg90 F32.cosDeg90 1)) = 10
    ∧ boxHeight ((spriteAt (⟨100, 50⟩ : Vec2 F32) ⟨20, 10⟩ 90).worldCorners
        (Glm.binary32 F32.deg90 F32.cosDeg90 1)) = 20 := by
  have h90 : ∀ q t : Vec2 ℝ, boxWidth ((spriteAt q t 90).worldCorners exactReal) = |t.y|
      ∧ boxHeight ((spriteAt q t 90).worldCorners exactReal) = |t.x| := by
    intro q t
    unfold boxWidth boxHeight
    rw [(Sprite.worldCorners_at_90 q t).1, (Sprite.worldCorners_at_90 q t).2]
    exact ⟨(extent_pairs _ _).1, (extent_pairs _ _).2⟩
  refine ⟨(h90 p s).1, (h90 p s).2, ?_, ?_, ?_, ?_, by decide, by decide⟩
  · unfold boxWidth
    rw [(Sprite.worldCorners_at_0 p s).1]
    exact (extent_pairs _ _).2
  · unfold boxHeight
    rw [(Sprite.worldCorners_at_0 p s).2, (extent_pairs _ _).1, abs_neg]
  · rw [(h90 ⟨100, 50⟩ ⟨20, 10⟩).1]
    norm_num
  · rw [(h90 ⟨100, 50⟩ ⟨20, 10⟩).2]
    norm_num

/-- C5 (as stated, refuted): a decoded 2x2 image with one channel is not rejected or flagged.
loadTexture returns the non-zero handle 1 and calls glTexImage2D with format RGB, and its handle
and calls are the very ones it produces for a three-channel image of the same size: nothing in
its result tells the two apart. -/
theorem C5_one_channel_not_rejected :
    (loadTexture "a.png" (some ⟨2, 2, 1⟩) {}).1.1 = 1
    ∧ Call.glTexImage2D .GL_RGB 2 2 ∈ (loadTexture "a.png" (some ⟨2, 2, 1⟩) {}).2.trace
    ∧ loadTexture "a.png" (some ⟨2, 2, 1⟩) {} = loadTexture "a.png" (some ⟨2, 2, 3⟩) {} := by
  refine ⟨rfl, ?_, rfl⟩
  simp [loadTexture, GLState.call, textureFormat]

/-- C5 (amended): in loadTexture a decoded image with 3 channels is uploaded with format RGB and
one with 4 channels with format RGBA; the channel count is not checked otherwise, and the only
image rejected is one that cannot be decoded: loadTexture returns the failure sentinel 0 exactly
then (the texture names OpenGL generates being non-zero), after printing a message and without
uploading anything. -/
theorem C5_format_mapping (path : String) (data : Option Image) (g : GLState)
    (h : g.nextTexture ≠ 0) :
    (∀ width height : Nat,
      (loadTexture path (some ⟨width, height, 3⟩) g).2.trace = g.trace ++
        [.glGenTextures g.nextTexture, .glBindTexture g.nextTexture,
         .stbi_set_flip_vertically_on_load, .stbi_load path,
         .glTexImage2D .GL_RGB width height,
         .glGenerateMipmap, .glTexParameteri, .glTexParameteri, .glTexParameteri,
         .glTexParameteri, .stbi_image_free, .glBindTexture 0]
      ∧ (loadTexture path (some ⟨width, height, 4⟩) g).2.trace = g.trace ++
        [.glGenTextures g.nextTexture, .glBindTexture g.nextTexture,
         .stbi_set_flip_vertically_on_load, .stbi_load path,
         .glTexImage2D .GL_RGBA width height,
         .glGenerateMipmap, .glTexParameteri, .glTexParameteri, .glTexParameteri,
         .glTexParameteri, .stbi_image_free, .glBindTexture 0])
    ∧ ((loadTexture path data g).1.1 = 0 ↔ data = none)
    ∧ (loadTexture path none g).2.trace = g.trace ++
        [.glGenTextures g.nextTexture, .glBindTexture g.nextTexture,
         .stbi_set_flip_vertically_on_load, .stbi_load path,
         .print ("Erro ao carregar: " ++ path)] := by
  refine ⟨fun width height => ⟨?_, ?_⟩, ?_, ?_⟩
  · simp [loadTexture, GLState.call, textureFormat]
  · simp [loadTexture, GLState.call, textureFormat]
  · cases data <;> simp [loadTexture, h]
  · simp [loadTexture, GLState.call]

/-- Witness of C5_format_mapping: a three-channel 2x2 image decoded from "a.png", loaded in the
initial state, whose next texture name is 1. -/
theorem C5_format_mapping_witness :
    ({} : GLState).nextTexture ≠ 0
    ∧ ((∀ width height : Nat,
      (loadTexture "a.png" (some ⟨width, height, 3⟩) {}).2.trace = ({} : GLState).trace ++
        [.glGenTextures ({} : GLState).nextTexture, .glBindTexture ({} : GLState).nextTexture,
         .stbi_set_flip_vertically_on_load, .stbi_load "a.png",
         .glTexImage2D .GL_RGB width height,
         .glGenerateMipmap, .glTexParameteri, .glTexParameteri, .glTexParameteri,
         .glTexParameteri, .stbi_image_free, .glBindTexture 0]
      ∧ (loadTexture "a.png" (some ⟨width, height, 4⟩) {}).2.trace = ({} : GLState).trace ++
        [.glGenTextures ({} : GLState).nextTexture, .glBindTexture ({} : GLState).nextTexture,
         .stbi_set_flip_vertically_on_load, .stbi_load "a.png",
         .glTexImage2D .GL_RGBA width height,
         .glGenerateMipmap, .glTexParameteri, .glTexParameteri, .glTexParameteri,
         .glTexParameteri, .stbi_image_free, .glBindTexture 0])
    ∧ ((loadTexture "a.png" (some ⟨2, 2, 3⟩) {}).1.1 = 0 ↔ (some ⟨2, 2, 3⟩ : Option Image) = none)
    ∧ (loadTexture "a.png" none {}).2.trace = ({} : GLState).trace ++
        [.glGenTextures ({} : GLState).nextTexture, .glBindTexture ({} : GLState).nextTexture,
         .stbi_set_flip_vertically_on_load, .stbi_load "a.png",
         .print ("Erro ao carregar: " ++ "a.png")]) :=
  ⟨by decide, C5_format_mapping "a.png" (some ⟨2, 2, 3⟩) {} (by decide)⟩

section MainLemmas

variable {α : Type} [Field α]

/-- The Shader constructor appends `Shader.calls` and uses three object names. -/
theorem Shader.new_eq (v f l : Bool) (g : GLState) :
    Shader.new v f l g =
      (⟨g.nextObject + 2⟩,
       { g with trace := g.trace ++ Shader.calls v f l g.nextObject,
                nextObject := g.nextObject + 3 }) := by
  cases v <;> cases f <;> cases l <;> simp [Shader.new, Shader.calls, GLState.call]

/-- Without its diagnostics, the Shader constructor makes the calls of a successful build. -/
theorem Shader.calls_filter (v f l : Bool) (k : Nat) :
    ((Shader.calls v f l k).filter Call.notShaderDiagnostic)
      = Shader.calls true true true k := by
  cases v <;> cases f <;> cases l <;> simp [Shader.calls, Call.notShaderDiagnostic]

/-- The frame loop only appends calls, and those it appends do not depend on the calls before. -/
theorem Main.loop_trace (bg character : Sprite α) (n : Nat) (g : GLState) :
    (Main.loop bg character n g).trace = g.trace ++ Main.loopCalls bg character n := by
  unfold Main.loopCalls
  induction n generalizing g with
  | zero => simp [Main.loop, GLState.call]
  | succ k ih =>
    rw [Main.loop, ih, Main.loop, ih (g := Sprite.draw _ _ |>.call _)]
    simp [Sprite.draw, GLState.call]

/-- The frame loop makes no shader diagnostic call. -/
theorem Main.loopCalls_filter (bg character : Sprite α) (n : Nat) :
    ((Main.loopCalls bg character n).filter Call.notShaderDiagnostic)
      = Main.loopCalls bg character n := by
  induction n with
  | zero => simp [Main.loopCalls, Main.loop, GLState.call, Call.notShaderDiagnostic]
  | succ k ih =>
    rw [Main.loopCalls, Main.loop, Main.loop_trace, List.filter_append, ih]
    simp [Sprite.draw, GLState.call, Call.notShaderDiagnostic]

end MainLemmas

/-- C6: main returns -1 exactly when glfwInit fails, or window creation fails, or GL function
loading fails, or one of the two images cannot be decoded, and returns 0 otherwise, after the
window is closed; loadTexture returns 0 exactly when the image cannot be decoded (the texture
names OpenGL generates being non-zero); the outcome of shader compilation and linking changes
neither the exit code nor the calls made, apart from the diagnostics themselves. -/
theorem C6_exit_codes (env : Env) :
    ((Main.main env).1 = -1 ↔
        (env.glfwInitOk = false ∨ env.windowOk = false ∨ env.gladOk = false
          ∨ env.imageBG = none ∨ env.imageChar = none))
    ∧ ((Main.main env).1 ≠ -1 ↔ (Main.main env).1 = 0)
    ∧ (∀ (path : String) (data : Option Image) (g : GLState),
        (loadTexture path data g).1.1 = 0 ↔ (data = none ∨ g.nextTexture = 0))
    ∧ (∀ v f l : Bool, (Main.main (env.withShader v f l)).1 = (Main.main env).1)
    ∧ ((Main.main env).2.filter Call.notShaderDiagnostic)
        = (Main.main (env.withShader true true true)).2 := by
  have hload : ∀ (path : String) (data : Option Image) (g : GLState),
      (loadTexture path data g).1.1 = 0 ↔ (data = none ∨ g.nextTexture = 0) := by
    intro path data g
    cases data <;> simp [loadTexture]
  generalize (∀ (path : String) (data : Option Image) (g : GLState),
      (loadTexture path data g).1.1 = 0 ↔ (data = none ∨ g.nextTexture = 0)) = P at hload ⊢
  rcases env with ⟨a, b, c, v, f, l, ibg, ich, n⟩
  cases a
  · simp [Main.main, Env.withShader, GLState.call, Call.notShaderDiagnostic, hload]
  cases b
  · simp [Main.main, Env.withShader, GLState.call, Call.notShaderDiagnostic, hload]
  cases c
  · simp [Main.main, Env.withShader, GLState.call, Call.notShaderDiagnostic, hload]
  cases ibg <;> cases ich <;>
    simp [Main.main, Env.withShader, GLState.call, Call.notShaderDiagnostic, loadTexture,
      Shader.new_eq, Shader.delete, Sprite.new, Sprite.initRenderData, Sprite.delete,
      Main.loop_trace, Main.loopCalls_filter, Shader.calls_filter, List.filter_append, hload]

/-- C7: the vertex data of Sprite::initRenderData is the four vertices (-0.5,0.5,0) uv(0,1),
(-0.5,-0.5,0) uv(0,0), (0.5,0.5,0) uv(1,1), (0.5,-0.5,0) uv(1,0), in that order; each has
(u,v) = (x+0.5, y+0.5); and the two triangles of the strip, v0 v1 v2 and v1 v2 v3, are
non-degenerate, have disjoint interiors, and together cover exactly the square from
(-0.5,-0.5) to (0.5,0.5). -/
theorem C7_quad_geometry {α : Type} [LinearOrderedField α] :
    ((Sprite.vertices : List α).length = 20
      ∧ (Sprite.aPos 0 : Vec3 α) = ⟨-(1 / 2), 1 / 2, 0⟩ ∧ (Sprite.aTexCoord 0 : Vec2 α) = ⟨0, 1⟩
      ∧ (Sprite.aPos 1 : Vec3 α) = ⟨-(1 / 2), -(1 / 2), 0⟩ ∧ (Sprite.aTexCoord 1 : Vec2 α) = ⟨0, 0⟩
      ∧ (Sprite.aPos 2 : Vec3 α) = ⟨1 / 2, 1 / 2, 0⟩ ∧ (Sprite.aTexCoord 2 : Vec2 α) = ⟨1, 1⟩
      ∧ (Sprite.aPos 3 : Vec3 α) = ⟨1 / 2, -(1 / 2), 0⟩ ∧ (Sprite.aTexCoord 3 : Vec2 α) = ⟨1, 0⟩)
    ∧ (∀ i : Fin 4, (Sprite.aTexCoord i : Vec2 α)
        = ⟨(Sprite.aPos i : Vec3 α).x + 1 / 2, (Sprite.aPos i : Vec3 α).y + 1 / 2⟩)
    ∧ (doubledArea (Sprite.stripCorner 0 0 : Vec2 α) (Sprite.stripCorner 0 1)
          (Sprite.stripCorner 0 2) ≠ 0
      ∧ doubledArea (Sprite.stripCorner 1 0 : Vec2 α) (Sprite.stripCorner 1 1)
          (Sprite.stripCorner 1 2) ≠ 0)
    ∧ (∀ q : Vec2 α,
        ¬ (inTriangleInterior (Sprite.stripCorner 0 0) (Sprite.stripCorner 0 1)
              (Sprite.stripCorner 0 2) q
          ∧ inTriangleInterior (Sprite.stripCorner 1 0) (Sprite.stripCorner 1 1)
              (Sprite.stripCorner 1 2) q))
    ∧ (∀ q : Vec2 α,
        (inTriangle (Sprite.stripCorner 0 0) (Sprite.stripCorner 0 1) (Sprite.stripCorner 0 2) q
          ∨ inTriangle (Sprite.stripCorner 1 0) (Sprite.stripCorner 1 1)
              (Sprite.stripCorner 1 2) q)
        ↔ inQuad q.x q.y) := by
  have c00 : (Sprite.stripCorner 0 0 : Vec2 α) = ⟨-(1 / 2), 1 / 2⟩ := rfl
  have c01 : (Sprite.stripCorner 0 1 : Vec2 α) = ⟨-(1 / 2), -(1 / 2)⟩ := rfl
  have c02 : (Sprite.stripCorner 0 2 : Vec2 α) = ⟨1 / 2, 1 / 2⟩ := rfl
  have c10 : (Sprite.stripCorner 1 0 : Vec2 α) = ⟨-(1 / 2), -(1 / 2)⟩ := rfl
  have c11 : (Sprite.stripCorner 1 1 : Vec2 α) = ⟨1 / 2, 1 / 2⟩ := rfl
  have c12 : (Sprite.stripCorner 1 2 : Vec2 α) = ⟨1 / 2, -(1 / 2)⟩ := rfl
  rw [c00, c01, c02, c10, c11, c12]
  refine ⟨⟨rfl, rfl, rfl, rfl, rfl, rfl, rfl, rfl, rfl⟩, ?_, ?_, ?_, ?_⟩
  · intro i
    fin_cases i <;>
      simp [Sprite.aPos_zero, Sprite.aPos_one, Sprite.aPos_two, Sprite.aPos_three,
        Sprite.aTexCoord_zero, Sprite.aTexCoord_one, Sprite.aTexCoord_two,
        Sprite.aTexCoord_three] <;> norm_num
  · constructor <;> norm_num [doubledArea]
  · rintro q ⟨⟨u, v, w, hu, hv, hw, hs, hx, hy⟩, ⟨u', v', w', hu', hv', hw', hs', hx', hy'⟩⟩
    simp only at hx hy hx' hy'
    linarith
  · intro q
    simp only [inTriangle, inQuad]
    constructor
    · rintro (⟨u, v, w, hu, hv, hw, hs, hx, hy⟩ | ⟨u, v, w, hu, hv, hw, hs, hx, hy⟩) <;>
        refine ⟨?_, ?_, ?_, ?_⟩ <;> linarith
    · rintro ⟨h1, h2, h3, h4⟩
      rcases le_total q.x q.y with h | h
      · exact Or.inl ⟨q.y - q.x, 1 / 2 - q.y, q.x + 1 / 2, by linarith, by linarith,
          by linarith, by ring, by ring, by ring⟩
      · exact Or.inr ⟨1 / 2 - q.x, q.y + 1 / 2, q.x - q.y, by linarith, by linarith,
          by linarith, by ring, by ring, by ring⟩

/-- A suffix of a list is a suffix of every extension of that list to the left. -/
theorem List.suffix_step {β : Type} {t l₁ l₂ : List β} (h : t <:+ l₂) : t <:+ l₁ ++ l₂ :=
  h.trans (List.suffix_append _ _)

/-- C8: on the normal-exit path of main (initialisation and both texture loads succeed, the
window is closed after `n` frames) the exit code is 0 and the calls end with the two
glDeleteTextures, then glfwTerminate, and only then the glDeleteVertexArrays and glDeleteBuffers of
both Sprites and the glDeleteProgram of the Shader: five release calls are made after context
teardown. -/
theorem C8_releases_after_terminate (v f l : Bool) (a b : Image) (n : Nat) :
    (Main.main ⟨true, true, true, v, f, l, some a, some b, n⟩).1 = 0
    ∧ [Call.glDeleteTextures 1, .glDeleteTextures 2, .glfwTerminate,
        .glDeleteVertexArrays 2, .glDeleteBuffers 2, .glDeleteVertexArrays 1, .glDeleteBuffers 1,
        .glDeleteProgram 3]
      <:+ (Main.main ⟨true, true, true, v, f, l, some a, some b, n⟩).2 := by
  simp only [Main.main, GLState.call, loadTexture, Shader.new_eq, Shader.delete, Sprite.new,
    Sprite.initRenderData, Sprite.delete, Main.loop_trace, Main.configureBg,
    Main.configureCharacter, Sprite.setScale, Sprite.setPosition, Sprite.setRotation]
  refine ⟨by simp, ?_⟩
  simp only [Bool.not_true, Bool.false_eq_true, if_false, Nat.reduceAdd, Nat.succ_ne_zero,
    or_self, List.append_assoc, ↓reduceIte]
  repeat (first | exact List.suffix_refl _ | apply List.suffix_step)

/-- The vertex shader's output for an unrotated sprite at the window centre, under the
projection of main. -/
theorem Main.unrotated_ndc (sp : Sprite ℝ) (hp : sp._position = ⟨400, 300⟩)
    (hr : sp._rotation = 0) (x y z : ℝ) :
    vertexShader Main.projection (sp.model exactReal) ⟨x, y, z⟩
      = ⟨sp._scale.x * x / 400, sp._scale.y * y / 300, -z, 1⟩ := by
  rw [Sprite.model_entries exactReal Glm.exactReal_sqrtOne, hp, hr]
  simp only [vertexShader, Main.projection, Glm.ortho, Mat4.mul, Mat4.mulVec, Vec4.add,
    Vec4.smul, Glm.exactReal_cos, Glm.exactReal_sin, zero_mul, Real.cos_zero, Real.sin_zero]
  ext <;> norm_num <;> ring

/-- C9 (as stated, refuted): in binary32, for a character texture 16777215 pixels wide (and 64
high), the model matrix main's configuration gives sends the quad's centre to (400.5, 300), since
400 + 8388607.5 rounds to 8389008, and projection * model sends it to x = 5243 * 2^-22 (about
0.00125) in normalized device coordinates, not to the centre 0 of the screen. -/
theorem C9_binary32_character_off_centre :
    ((Main.configureCharacter (Sprite.new 0 ⟨0⟩ {}).1 16777215 64 : Sprite F32).model
        (Glm.binary32 0 1 0)).mulVec ⟨0, 0, 0, 1⟩ = ⟨F32.ofRat 801 2, 300, 0, 1⟩
    ∧ vertexShader Main.projection
        ((Main.configureCharacter (Sprite.new 0 ⟨0⟩ {}).1 16777215 64 : Sprite F32).model
          (Glm.binary32 0 1 0)) ⟨0, 0, 0⟩ = ⟨F32.ofRat 5243 4194304, 0, 0, 1⟩
    ∧ F32.ofRat 5243 4194304 ≠ 0 := by
  decide

/-- C9 (amended): over exact real arithmetic, under projection = ortho(0,800,0,600,-1,1), a sprite
with rotation 0, position (400,300) and scale (w,h) has its local corners (-0.5,0.5),
(-0.5,-0.5), (0.5,0.5), (0.5,-0.5) sent by projection * model to (-w/800, h/600),
(-w/800, -h/600), (w/800, h/600), (w/800, -h/600); the background sprite as main configures it
has its corners at (-1,1), (-1,-1), (1,1), (1,-1), over exact real arithmetic and in binary32
alike, and its quad covers exactly [-1,1] x [-1,1]; over exact real arithmetic the character
sprite as main configures it has its centre at the centre (0,0) of the screen, and its corners
symmetric about it, for every texture size. -/
theorem C9_scene_placement (w h : ℝ) (textureID : Nat) (shader : Shader) (g : GLState)
    (sp : Sprite ℝ) (widthChar heightChar : Nat) :
    (vertexShader Main.projection ((spriteAt ⟨400, 300⟩ ⟨w, h⟩ 0).model exactReal) (Sprite.aPos 0)
        = ⟨-w / 800, h / 600, 0, 1⟩
      ∧ vertexShader Main.projection ((spriteAt ⟨400, 300⟩ ⟨w, h⟩ 0).model exactReal) (Sprite.aPos 1)
        = ⟨-w / 800, -h / 600, 0, 1⟩
      ∧ vertexShader Main.projection ((spriteAt ⟨400, 300⟩ ⟨w, h⟩ 0).model exactReal) (Sprite.aPos 2)
        = ⟨w / 800, h / 600, 0, 1⟩
      ∧ vertexShader Main.projection ((spriteAt ⟨400, 300⟩ ⟨w, h⟩ 0).model exactReal) (Sprite.aPos 3)
        = ⟨w / 800, -h / 600, 0, 1⟩)
    ∧ (Sprite.corners.map
          (vertexShader Main.projection
            ((Main.configureBg (Sprite.new textureID shader g).1 : Sprite ℝ).model exactReal))
        = [⟨-1, 1, 0, 1⟩, ⟨-1, -1, 0, 1⟩, ⟨1, 1, 0, 1⟩, ⟨1, -1, 0, 1⟩]
      ∧ Sprite.corners.map
          (vertexShader Main.projection
            ((Main.configureBg (Sprite.new textureID shader g).1 : Sprite F32).model
              (Glm.binary32 0 1 0)))
        = [⟨-1, 1, 0, 1⟩, ⟨-1, -1, 0, 1⟩, ⟨1, 1, 0, 1⟩, ⟨1, -1, 0, 1⟩]
      ∧ ∀ X Y : ℝ, (∃ x y, inQuad x y ∧
            vertexShader Main.projection
              ((Main.configureBg (Sprite.new textureID shader g).1 : Sprite ℝ).model exactReal)
              ⟨x, y, 0⟩ = ⟨X, Y, 0, 1⟩)
          ↔ (|X| ≤ 1 ∧ |Y| ≤ 1))
    ∧ (vertexShader Main.projection
          ((Main.configureCharacter sp widthChar heightChar).model exactReal) ⟨0, 0, 0⟩
        = ⟨0, 0, 0, 1⟩
      ∧ Sprite.corners.map
          (vertexShader Main.projection
            ((Main.configureCharacter sp widthChar heightChar).model exactReal))
        = [⟨-(widthChar : ℝ) / 800, (heightChar : ℝ) / 600, 0, 1⟩,
           ⟨-(widthChar : ℝ) / 800, -(heightChar : ℝ) / 600, 0, 1⟩,
           ⟨(widthChar : ℝ) / 800, (heightChar : ℝ) / 600, 0, 1⟩,
           ⟨(widthChar : ℝ) / 800, -(heightChar : ℝ) / 600, 0, 1⟩]) := by
  have hbg : ∀ x y z : ℝ, vertexShader Main.projection
      ((Main.configureBg (Sprite.new textureID shader g).1 : Sprite ℝ).model exactReal) ⟨x, y, z⟩
        = ⟨2 * x, 2 * y, -z, 1⟩ := by
    intro x y z
    rw [Main.unrotated_ndc _ (by norm_num [Main.configureBg, Sprite.setPosition]) rfl]
    simp only [Main.configureBg, Sprite.setPosition, Sprite.setScale]
    ext <;> norm_num <;> ring
  have hch : ∀ x y z : ℝ, vertexShader Main.projection
      ((Main.configureCharacter sp widthChar heightChar).model exactReal) ⟨x, y, z⟩
        = ⟨(widthChar : ℝ) * x / 400, (heightChar : ℝ) * y / 300, -z, 1⟩ := by
    intro x y z
    rw [Main.unrotated_ndc _ (by norm_num [Main.configureCharacter, Sprite.setPosition,
      Sprite.setRotation]) rfl]
    rfl
  have hgen : ∀ x y z : ℝ, vertexShader Main.projection
      ((spriteAt ⟨400, 300⟩ ⟨w, h⟩ 0).model exactReal) ⟨x, y, z⟩
        = ⟨w * x / 400, h * y / 300, -z, 1⟩ := by
    intro x y z
    rw [Main.unrotated_ndc _ rfl rfl]
    rfl
  have hbg32 : Sprite.corners.map
      (vertexShader Main.projection
        ((Main.configureBg (Sprite.new textureID shader g).1 : Sprite F32).model
          (Glm.binary32 0 1 0)))
      = [⟨-1, 1, 0, 1⟩, ⟨-1, -1, 0, 1⟩, ⟨1, 1, 0, 1⟩, ⟨1, -1, 0, 1⟩] := by
    have h : ((Main.configureBg (Sprite.new textureID shader g).1 : Sprite F32).model
        (Glm.binary32 0 1 0))
        = (spriteAt (⟨800 / 2, 600 / 2⟩ : Vec2 F32) ⟨800, 600⟩ 0).model (Glm.binary32 0 1 0) :=
      rfl
    rw [h]
    decide
  refine ⟨⟨?_, ?_, ?_, ?_⟩, ⟨?_, hbg32, fun X Y => ?_⟩, ?_, ?_⟩
  · rw [Sprite.aPos_zero, hgen]; ext <;> norm_num <;> ring
  · rw [Sprite.aPos_one, hgen]; ext <;> norm_num <;> ring
  · rw [Sprite.aPos_two, hgen]; ext <;> norm_num <;> ring
  · rw [Sprite.aPos_three, hgen]; ext <;> norm_num <;> ring
  · simp only [Sprite.corners, List.map, Sprite.aPos_zero, Sprite.aPos_one, Sprite.aPos_two,
      Sprite.aPos_three, hbg]
    norm_num
  · have hX := scaled_interval (0 : ℝ) 2 X
    have hY := scaled_interval (0 : ℝ) 2 Y
    simp only [zero_add, sub_zero, abs_two, div_self (two_ne_zero' ℝ)] at hX hY
    rw [← hX, ← hY]
    constructor
    · rintro ⟨x, y, ⟨hx1, hx2, hy1, hy2⟩, hxy⟩
      rw [hbg] at hxy
      exact ⟨⟨x, hx1, hx2, congrArg Vec4.x hxy⟩, ⟨y, hy1, hy2, congrArg Vec4.y hxy⟩⟩
    · rintro ⟨⟨x, hx1, hx2, h1⟩, ⟨y, hy1, hy2, h2⟩⟩
      refine ⟨x, y, ⟨hx1, hx2, hy1, hy2⟩, ?_⟩
      rw [hbg, h1, h2, neg_zero]
  · rw [hch]; ext <;> norm_num
  · simp only [Sprite.corners, List.map, Sprite.aPos_zero, Sprite.aPos_one, Sprite.aPos_two,
      Sprite.aPos_three, hch]
    simp only [List.cons.injEq, and_true]
    refine ⟨?_, ?_, ?_, ?_⟩ <;> ext <;> norm_num <;> ring

/-- C10 (as stated, refuted): in binary32, at position (0,0) and scale (3, 2^25), the model
matrix of Sprite::draw sends the local corner (0.5,0.5,0) to (1.5, 2^24, 0) at rotation 0 but to
(2, 2^24, 0) at rotation 90 degrees, whether cosf returns the correctly rounded value for the
angle or exactly 0: the image depends on the rotation, and at 90 degrees it is not
(p.x + 0.5 s.x, p.y + 0.5 s.y, 0) = (1.5, 2^24, 0). -/
theorem C10_binary32_corner_moves_with_rotation :
    ((spriteAt (⟨0, 0⟩ : Vec2 F32) ⟨3, 33554432⟩ 0).model (Glm.binary32 0 1 0)).mulVec
        ⟨1 / 2, 1 / 2, 0, 1⟩ = ⟨F32.ofRat 3 2, 16777216, 0, 1⟩
    ∧ ((spriteAt (⟨0, 0⟩ : Vec2 F32) ⟨3, 33554432⟩ 90).model
          (Glm.binary32 F32.deg90 F32.cosDeg90 1)).mulVec
        ⟨1 / 2, 1 / 2, 0, 1⟩ = ⟨2, 16777216, 0, 1⟩
    ∧ ((spriteAt (⟨0, 0⟩ : Vec2 F32) ⟨3, 33554432⟩ 90).model (Glm.binary32 F32.deg90 0 1)).mulVec
        ⟨1 / 2, 1 / 2, 0, 1⟩ = ⟨2, 16777216, 0, 1⟩
    ∧ (⟨0 + 1 / 2 * 3, 0 + 1 / 2 * 33554432, 0, 1⟩ : Vec4 F32) = ⟨F32.ofRat 3 2, 16777216, 0, 1⟩
    ∧ (⟨2, 16777216, 0, 1⟩ : Vec4 F32) ≠ ⟨F32.ofRat 3 2, 16777216, 0, 1⟩ := by
  decide

/-- C10 (amended): over exact real arithmetic, the fixed point of the sprite's rotation is the
quad's local corner (0.5,0.5), its top-right vertex (vertex 2): for every sprite the model matrix
of Sprite::draw maps it to (p.x + 0.5 s.x, p.y + 0.5 s.y, 0), whatever the rotation; the local
centre (0,0,0) is mapped to p + 0.5 s - Rot_r(0.5 s), and that image is the same for all
rotations only when the scale is (0,0). -/
theorem C10_pivot_is_top_right_corner (sp : Sprite ℝ) (p s : Vec2 ℝ) :
    (Sprite.aPos 2 : Vec3 ℝ) = ⟨1 / 2, 1 / 2, 0⟩
    ∧ (sp.model exactReal).mulVec ⟨1 / 2, 1 / 2, 0, 1⟩
        = ⟨sp._position.x + (1 / 2) * sp._scale.x, sp._position.y + (1 / 2) * sp._scale.y, 0, 1⟩
    ∧ (sp.model exactReal).mulVec ⟨0, 0, 0, 1⟩
        = ⟨sp._position.x + (1 / 2) * sp._scale.x
            - (Real.cos (sp._rotation * (Real.pi / 180)) * ((1 / 2) * sp._scale.x)
              - Real.sin (sp._rotation * (Real.pi / 180)) * ((1 / 2) * sp._scale.y)),
           sp._position.y + (1 / 2) * sp._scale.y
            - (Real.sin (sp._rotation * (Real.pi / 180)) * ((1 / 2) * sp._scale.x)
              + Real.cos (sp._rotation * (Real.pi / 180)) * ((1 / 2) * sp._scale.y)),
           0, 1⟩
    ∧ ((∀ r : ℝ, ((spriteAt p s r).model exactReal).mulVec ⟨0, 0, 0, 1⟩
            = ((spriteAt p s 0).model exactReal).mulVec ⟨0, 0, 0, 1⟩)
        ↔ s = ⟨0, 0⟩) := by
  refine ⟨rfl, ?_, ?_, ?_⟩
  · rw [Sprite.model_mulVec exactReal Glm.exactReal_sqrtOne]
    ext <;> simp <;> ring
  · rw [Sprite.model_mulVec exactReal Glm.exactReal_sqrtOne]
    simp only [Glm.exactReal_cos, Glm.exactReal_sin, Glm.exactReal_degToRad]
    ext <;> simp <;> ring
  · constructor
    · intro hall
      have h := hall 180
      simp only [Sprite.model_mulVec exactReal Glm.exactReal_sqrtOne, spriteAt, Sprite.setPosition,
        Sprite.setScale, Sprite.setRotation, Glm.exactReal_cos, Glm.exactReal_sin, Glm.exactReal_degToRad,
        Glm.deg180, Real.cos_pi, Real.sin_pi, zero_mul, Real.cos_zero, Real.sin_zero] at h
      have hx := congrArg Vec4.x h
      have hy := congrArg Vec4.y h
      simp only at hx hy
      ext
      · show s.x = 0
        linarith
      · show s.y = 0
        linarith
    · rintro rfl r
      simp only [Sprite.model_mulVec exactReal Glm.exactReal_sqrtOne, spriteAt, Sprite.setPosition,
        Sprite.setScale, Sprite.setRotation]
      ext <;> simp
